import Mathlib

/-!
# Verification of the cobranza collections backend (server.js)

Shallow embedding of the core of the repository's Express/Mongoose backend:
the arrears classifier (POST /api/deudas and the scheduled job
`actualizarDiasMora`), the template selector and message renderer
(POST /api/comunicaciones/enviar), the dispatch outcome handling with
campaign-metric updates, and the A/B campaign comparison endpoint
(GET /api/campanias/comparar/:campaniaA/:campaniaB).

Dates are modelled as JavaScript timestamps: integers counting milliseconds
since the epoch.  `Math.floor((hoy - fechaVencimiento) / 86400000)` on a
positive difference is natural-number division by `msPorDia`.
-/

/-- `estado` enum of the `Deuda` mongoose schema:
`['pendiente','mora_temprana','mora_media','mora_avanzada','pagada','cancelada']`. -/
inductive EstadoDeuda
  | pendiente
  | mora_temprana
  | mora_media
  | mora_avanzada
  | pagada
  | cancelada
  deriving DecidableEq, Repr

/-- The fields of a `Deuda` document that the embedded operations read or
write.  `fechaVencimiento` is a millisecond timestamp; `diasMora` is a
non-negative count (the schema validator requires `minimum: 0`); `monto` is
kept for message rendering.  Remaining schema fields (clienteId,
facturaNumero, descripcion, timestamps) are never consulted by the embedded
code paths. -/
structure Deuda where
  fechaVencimiento : Int
  diasMora : Nat
  estado : EstadoDeuda
  monto : Nat
  deriving DecidableEq, Repr

/-- `1000 * 60 * 60 * 24`: milliseconds per day, the divisor used by both
classifier sites. -/
def msPorDia : Nat := 1000 * 60 * 60 * 24

/-- The tier assignment chain shared by POST /api/deudas and
`actualizarDiasMora`:
`if (diasMora <= 30) 'mora_temprana' else if (diasMora <= 90) 'mora_media'
else 'mora_avanzada'`. -/
def clasificarEstado (diasMora : Nat) : EstadoDeuda :=
  if diasMora ≤ 30 then .mora_temprana
  else if diasMora ≤ 90 then .mora_media
  else .mora_avanzada

/-- The per-debt classifier computation, identical at its two code sites
(POST /api/deudas create handler and the body of the `actualizarDiasMora`
loop): when `hoy > fechaVencimiento`, set
`diasMora = Math.floor((hoy - fechaVencimiento) / msPorDia)` and reassign
`estado` through `clasificarEstado`; otherwise leave the document untouched. -/
def actualizarDeuda (hoy : Int) (d : Deuda) : Deuda :=
  if d.fechaVencimiento < hoy then
    let dias : Nat := (hoy - d.fechaVencimiento).toNat / msPorDia
    { d with diasMora := dias, estado := clasificarEstado dias }
  else d

/-- Effect of one scheduler sweep of `actualizarDiasMora` on a single stored
debt: the Mongo query `Deuda.find({ estado: { $ne: 'pagada' } })` excludes
exactly the debts in `pagada` (and no others), and every selected debt goes
through `actualizarDeuda`. -/
def pasoScheduler (hoy : Int) (d : Deuda) : Deuda :=
  if d.estado = .pagada then d else actualizarDeuda hoy d

/-- Tier table as the spec words it (section 4.1): `0` days maps to
`current` (`pendiente`), `1..30` to `early`, `31..90` to `mid`, `>90` to
`advanced`.  Written from the spec's sentence, to be compared against the
source's `clasificarEstado`. -/
def specTierTable (dias : Nat) : EstadoDeuda :=
  if dias = 0 then .pendiente
  else if dias ≤ 30 then .mora_temprana
  else if dias ≤ 90 then .mora_media
  else .mora_avanzada

/-- A concrete debt shared by several witnesses: due at the epoch, freshly
created (`pendiente`, no stored arrears). -/
def deudaCero : Deuda :=
  { fechaVencimiento := 0, diasMora := 0, estado := .pendiente, monto := 0 }

/-- A concrete debt whose due date (day 1) has not yet arrived but which
carries a stale stored classification. -/
def deudaFutura : Deuda :=
  { fechaVencimiento := 86400000, diasMora := 5, estado := .mora_temprana, monto := 5 }

/-- A concrete cancelled debt due at the epoch. -/
def deudaCancelada : Deuda :=
  { fechaVencimiento := 0, diasMora := 0, estado := .cancelada, monto := 7 }

/-- A concrete paid debt. -/
def deudaPagada : Deuda :=
  { fechaVencimiento := 0, diasMora := 3, estado := .pagada, monto := 1 }

/-- `tipo` enum shared by the `Comunicacion` and `Plantilla` schemas:
`['email','sms','whatsapp']`.  A request whose `tipo` is outside this enum
can never pass the template lookup (no stored template validates with such a
`tipo`), so the dispatch path only ever runs with one of these three. -/
inductive Canal
  | email
  | sms
  | whatsapp
  deriving DecidableEq, Repr

/-- `tono` enum: `['amigable','formal','urgente','legal']`. -/
inductive Tono
  | amigable
  | formal
  | urgente
  | legal
  deriving DecidableEq, Repr

/-- `estado` enum of the `Comunicacion` schema:
`['enviado','entregado','leido','respondido','error']`. -/
inductive EstadoCom
  | enviado
  | entregado
  | leido
  | respondido
  | error
  deriving DecidableEq, Repr

/-- Fields of a `Cliente` document read by the dispatch path.  The address
fields are only handed to the channel transports (thin I/O). -/
structure Cliente where
  nombre : String
  email : String
  telefono : String
  whatsapp : String
  deriving DecidableEq, Repr

/-- Fields of a `Plantilla` document used by selection and rendering:
channel (`tipo`), tone, arrears threshold (`diasMora`), body (`plantilla`)
and the active flag. -/
structure Plantilla where
  tipo : Canal
  tono : Tono
  diasMora : Nat
  plantilla : String
  activa : Bool
  deriving DecidableEq, Repr

/-- A persisted `Comunicacion` row as written by the dispatch handler. -/
structure Comunicacion where
  tipo : Canal
  contenido : String
  tono : Tono
  estado : EstadoCom
  deriving DecidableEq, Repr

/-- JavaScript `String.prototype.replace` with a string pattern: only the
first occurrence of `pat` is replaced by `rep`; with an empty pattern the
replacement is prepended. -/
def reemplazarPrimeroLista (s pat rep : List Char) : List Char :=
  match s with
  | [] => []
  | c :: rest =>
    if pat.isPrefixOf s then rep ++ s.drop pat.length
    else c :: reemplazarPrimeroLista rest pat rep

/-- `s.replace(pat, rep)` on strings (first occurrence only). -/
def reemplazarPrimero (s pat rep : String) : String :=
  ⟨reemplazarPrimeroLista s.data pat.data rep.data⟩

/-- Whether `pat` occurs as a substring of `s`. -/
def contieneLista (pat : List Char) : List Char → Bool
  | [] => pat.isEmpty
  | c :: rest => pat.isPrefixOf (c :: rest) || contieneLista pat rest

/-- Whether `pat` occurs as a substring of `s`, on strings. -/
def contiene (pat s : String) : Bool :=
  contieneLista pat.data s.data

/-- Model of the amount binding `$${deuda.monto.toLocaleString()}`
(locale thousands separators abstracted to plain digits). -/
def formatearMonto (monto : Nat) : String :=
  "$" ++ toString monto

/-- Model of `deuda.fechaVencimiento.toLocaleDateString()` (locale
formatting abstracted to the timestamp's digits). -/
def formatearFecha (ts : Int) : String :=
  toString ts

/-- The `contenido` computation of POST /api/comunicaciones/enviar: a chain
of four single-shot `.replace` calls over the template body, binding
`{nombre}`, `{monto}`, `{dias_mora}` and `{fecha_vencimiento}`. -/
def renderContenido (p : Plantilla) (c : Cliente) (d : Deuda) : String :=
  reemplazarPrimero
    (reemplazarPrimero
      (reemplazarPrimero
        (reemplazarPrimero p.plantilla "{nombre}" c.nombre)
        "{monto}" (formatearMonto d.monto))
      "{dias_mora}" (toString d.diasMora))
    "{fecha_vencimiento}" (formatearFecha d.fechaVencimiento)

/-- The filter of the `Plantilla.findOne` query: matching channel and tone,
threshold at most the debt's `diasMora`, and `activa: true`. -/
def coincide (tipo : Canal) (tono : Tono) (dias : Nat) (p : Plantilla) : Bool :=
  p.tipo = tipo && p.tono = tono && p.diasMora ≤ dias && p.activa

/-- `findOne(...).sort({ diasMora: -1 })`: one document with maximal
`diasMora` among the matches (Mongo leaves the order among equal keys
unspecified; the model keeps the earliest such document). -/
def mejorPlantilla : List Plantilla → Option Plantilla
  | [] => none
  | p :: ps =>
    match mejorPlantilla ps with
    | none => some p
    | some q => if p.diasMora < q.diasMora then some q else some p

/-- The template lookup of POST /api/comunicaciones/enviar over a catalog of
stored templates. -/
def seleccionarPlantilla (catalogo : List Plantilla) (tipo : Canal) (tono : Tono)
    (dias : Nat) : Option Plantilla :=
  mejorPlantilla (catalogo.filter (coincide tipo tono dias))

/-- HTTP outcome of POST /api/comunicaciones/enviar. -/
inductive RespuestaEnviar
  | exito : Comunicacion → RespuestaEnviar
  | noEncontrado : String → RespuestaEnviar
  | errorEnvio : String → RespuestaEnviar
  deriving DecidableEq, Repr

/-- Observable effects of one call to POST /api/comunicaciones/enviar:
the `Comunicacion` rows persisted by the call, the deltas applied to the
referenced campaign's `enviados`/`entregados` counters, how many
`findByIdAndUpdate` `$inc` operations ran, and the HTTP response. -/
structure ResultadoEnvio where
  comunicaciones : List Comunicacion
  incEnviados : Nat
  incEntregados : Nat
  opsIncremento : Nat
  respuesta : RespuestaEnviar
  deriving DecidableEq, Repr

/-- POST /api/comunicaciones/enviar.  Inputs are the looked-up customer and
debt (`findById` results), the requested channel and tone, whether a
`campaniaId` was supplied, the stored template catalog, and the outcome of
the one channel-transport call (`true` = the send resolved, `false` = it
threw).  Mirrors the handler: 404 when customer or debt is missing; 404
when no template matches; otherwise render, then on transport success save
the row as `entregado`, apply one `$inc` of both counters when a campaign
is referenced, and answer 200; on transport failure save the row as
`error`, touch no campaign counter, and answer a structured 500. -/
def enviarComunicacion (cliente : Option Cliente) (deuda : Option Deuda)
    (tipo : Canal) (tono : Tono) (hayCampania : Bool)
    (catalogo : List Plantilla) (transporteOk : Bool) : ResultadoEnvio :=
  match cliente, deuda with
  | some c, some d =>
    match seleccionarPlantilla catalogo tipo tono d.diasMora with
    | some p =>
      let contenido := renderContenido p c d
      if transporteOk then
        let com : Comunicacion :=
          { tipo := tipo, contenido := contenido, tono := tono, estado := .entregado }
        { comunicaciones := [com]
          incEnviados := if hayCampania then 1 else 0
          incEntregados := if hayCampania then 1 else 0
          opsIncremento := if hayCampania then 1 else 0
          respuesta := .exito com }
      else
        let com : Comunicacion :=
          { tipo := tipo, contenido := contenido, tono := tono, estado := .error }
        { comunicaciones := [com]
          incEnviados := 0
          incEntregados := 0
          opsIncremento := 0
          respuesta := .errorEnvio "Error al enviar comunicacion" }
    | none =>
      { comunicaciones := []
        incEnviados := 0
        incEntregados := 0
        opsIncremento := 0
        respuesta := .noEncontrado "No se encontro plantilla apropiada" }
  | _, _ =>
    { comunicaciones := []
      incEnviados := 0
      incEntregados := 0
      opsIncremento := 0
      respuesta := .noEncontrado "Cliente o deuda no encontrada" }

/-- A template at threshold `n` for channel `email` and tone `formal`, as in
the spec's end-to-end scenario (thresholds 0, 30, 90). -/
def plantillaUmbral (n : Nat) : Plantilla :=
  { tipo := .email, tono := .formal, diasMora := n,
    plantilla := "Estimado {nombre}: su deuda de {monto} lleva {dias_mora} dias de mora.",
    activa := true }

/-- The spec's example catalog: thresholds 0, 30 and 90. -/
def catalogoEjemplo : List Plantilla :=
  [plantillaUmbral 0, plantillaUmbral 30, plantillaUmbral 90]

/-- The customer of the spec's end-to-end scenario. -/
def clienteAna : Cliente :=
  { nombre := "Ana", email := "ana@test.com", telefono := "+100", whatsapp := "+100" }

/-- A debt 45 days in arrears (the spec's end-to-end scenario). -/
def deuda45 : Deuda :=
  { fechaVencimiento := 0, diasMora := 45, estado := .mora_media, monto := 100 }

/-- A concrete active SMS template with threshold 0. -/
def plantillaSms : Plantilla :=
  { tipo := .sms, tono := .urgente, diasMora := 0,
    plantilla := "Pago pendiente de {monto} ({dias_mora} dias).", activa := true }

/-- A template whose body uses the `{nombre}` placeholder twice. -/
def plantillaDoble : Plantilla :=
  { tipo := .email, tono := .amigable, diasMora := 0,
    plantilla := "Hola {nombre}, gracias {nombre}", activa := true }

/-- The `metricas` block of the `Campania` schema (counters only; the stored
`tasaConversion` field is never read by the compare endpoint). -/
structure Metricas where
  enviados : Nat
  entregados : Nat
  leidos : Nat
  respondidos : Nat
  pagos : Nat
  deriving DecidableEq, Repr

/-- The fields of a `Campania` document read by the compare endpoint. -/
structure Campania where
  nombre : String
  metricas : Metricas
  deriving DecidableEq, Repr

/-- A JavaScript number as produced by the campaign-rate arithmetic: a
finite value (modelled as an exact rational), `NaN` (from `0/0`) or
`Infinity` (from `x/0`, `x > 0`). -/
inductive JsNum
  | fin : ℚ → JsNum
  | nan : JsNum
  | inf : JsNum
  deriving DecidableEq, Repr

/-- JavaScript division on the (non-negative) counters: `0/0` is `NaN`,
`x/0` is `Infinity` for positive `x`, otherwise exact division. -/
def jsDiv (a b : ℚ) : JsNum :=
  if b = 0 then (if a = 0 then .nan else .inf) else .fin (a / b)

/-- Multiplication by 100; `NaN` and `Infinity` absorb. -/
def jsMul100 : JsNum → JsNum
  | .fin q => .fin (q * 100)
  | .nan => .nan
  | .inf => .inf

/-- `toFixed(2)` rounding of a finite value to two decimals (round half
up on these non-negative rates). -/
def redondear2 (q : ℚ) : ℚ :=
  (⌊q * 100 + 1 / 2⌋ : ℚ) / 100

/-- `toFixed(2)` on a JavaScript number: rounds a finite value; `NaN` and
`Infinity` render as themselves (`"NaN"` / `"Infinity"`). -/
def jsToFixed2 : JsNum → JsNum
  | .fin q => .fin (redondear2 q)
  | .nan => .nan
  | .inf => .inf

/-- One rate of the compare endpoint:
`(contador / metricas.enviados * 100).toFixed(2)`. -/
def tasa (contador enviados : Nat) : JsNum :=
  jsToFixed2 (jsMul100 (jsDiv (contador : ℚ) (enviados : ℚ)))

/-- The per-pair payload built by GET /api/campanias/comparar: open,
response and conversion rates for each campaign. -/
structure Comparacion where
  tasaAperturaA : JsNum
  tasaRespuestaA : JsNum
  tasaConversionA : JsNum
  tasaAperturaB : JsNum
  tasaRespuestaB : JsNum
  tasaConversionB : JsNum
  deriving DecidableEq, Repr

/-- HTTP outcome of GET /api/campanias/comparar: a 200 with the comparison,
or the generic 500 produced when the handler's catch receives a thrown
exception. -/
inductive RespuestaComparar
  | exito : Comparacion → RespuestaComparar
  | errorInterno : String → RespuestaComparar
  deriving DecidableEq, Repr

/-- GET /api/campanias/comparar/:campaniaA/:campaniaB.  Inputs are the two
`findById` results.  When either is `null`, the handler dereferences it
(`campaniaAData.nombre`), the thrown `TypeError` lands in the route's catch,
and the response is the generic `500 { error: error.message }` — there is no
404 branch.  Otherwise the three rates are computed for each campaign from
its counters. -/
def compararCampanias (ca cb : Option Campania) : RespuestaComparar :=
  match ca, cb with
  | some a, some b =>
    .exito
      { tasaAperturaA := tasa a.metricas.leidos a.metricas.enviados
        tasaRespuestaA := tasa a.metricas.respondidos a.metricas.enviados
        tasaConversionA := tasa a.metricas.pagos a.metricas.enviados
        tasaAperturaB := tasa b.metricas.leidos b.metricas.enviados
        tasaRespuestaB := tasa b.metricas.respondidos b.metricas.enviados
        tasaConversionB := tasa b.metricas.pagos b.metricas.enviados }
  | _, _ => .errorInterno "Cannot read properties of null"

/-- A metrics block with every counter at zero. -/
def metricasCero : Metricas :=
  { enviados := 0, entregados := 0, leidos := 0, respondidos := 0, pagos := 0 }

/-- A campaign with every counter at zero. -/
def campaniaCero : Campania :=
  { nombre := "Z", metricas := metricasCero }

/-- One entry of the `actualizarDiasMora` sweep: a stored debt together with
whether its `findByIdAndUpdate` would succeed (the injected store's
behavior for that document). -/
structure EntradaSweep where
  deuda : Deuda
  persistOk : Bool
  deriving DecidableEq, Repr

/-- The batch job `actualizarDiasMora` over the stored debts, in iteration
order.  The `find` filter skips `pagada` rows; each remaining overdue debt
is updated and persisted in turn.  The single try/catch wraps the whole
`for` loop, so a rejected `findByIdAndUpdate` aborts the loop: the failing
debt and every debt after it keep their stored state for this run.  Returns
the final stored debts plus whether an error was caught (caught errors are
logged; the function still returns normally, so the process survives). -/
def barridoDeudas (hoy : Int) : List EntradaSweep → List Deuda × Bool
  | [] => ([], false)
  | e :: rest =>
    if e.deuda.estado = .pagada then
      let r := barridoDeudas hoy rest
      (e.deuda :: r.1, r.2)
    else if e.deuda.fechaVencimiento < hoy then
      if e.persistOk then
        let r := barridoDeudas hoy rest
        (actualizarDeuda hoy e.deuda :: r.1, r.2)
      else
        (e.deuda :: rest.map EntradaSweep.deuda, true)
    else
      let r := barridoDeudas hoy rest
      (e.deuda :: r.1, r.2)

/-- A second overdue open debt, distinguishable from `deudaCero`. -/
def deudaNueve : Deuda :=
  { fechaVencimiento := 0, diasMora := 0, estado := .pendiente, monto := 9 }

theorem actualizarDeuda_lt {hoy : Int} {d : Deuda} (hv : d.fechaVencimiento < hoy) :
    actualizarDeuda hoy d =
      { d with diasMora := (hoy - d.fechaVencimiento).toNat / msPorDia,
               estado := clasificarEstado ((hoy - d.fechaVencimiento).toNat / msPorDia) } := by
  simp [actualizarDeuda, hv]

theorem actualizarDeuda_not_lt {hoy : Int} {d : Deuda} (hv : ¬ d.fechaVencimiento < hoy) :
    actualizarDeuda hoy d = d := by
  simp [actualizarDeuda, hv]

theorem clasificarEstado_temprana {n : Nat} (h : n ≤ 30) :
    clasificarEstado n = EstadoDeuda.mora_temprana := by
  simp [clasificarEstado, h]

theorem clasificarEstado_media {n : Nat} (h1 : 30 < n) (h2 : n ≤ 90) :
    clasificarEstado n = EstadoDeuda.mora_media := by
  simp only [clasificarEstado]
  rw [if_neg (by omega), if_pos h2]

theorem clasificarEstado_avanzada {n : Nat} (h : 90 < n) :
    clasificarEstado n = EstadoDeuda.mora_avanzada := by
  simp only [clasificarEstado]
  rw [if_neg (by omega), if_neg (by omega)]

/-- C1: the claim fails at `days_in_arrears = 0`: for a debt overdue by half
a day the code computes `diasMora = 0` but assigns `mora_temprana` (the
`diasMora <= 30` branch), while the spec's table sends 0 days to `current`
(`pendiente`); and for a debt whose due date has not passed, the classifier
leaves a stale stored `diasMora`/`estado` in place instead of assigning
`max(0, ...) = 0` and `current`. -/
theorem C1_counterexample :
    (actualizarDeuda 43200000 deudaCero).diasMora = 0 ∧
    (actualizarDeuda 43200000 deudaCero).estado = EstadoDeuda.mora_temprana ∧
    specTierTable 0 = EstadoDeuda.pendiente ∧
    EstadoDeuda.mora_temprana ≠ EstadoDeuda.pendiente ∧
    actualizarDeuda 0 deudaFutura = deudaFutura := by
  decide

/-- C1 (amended): for every debt not in a terminal tier, when the reference
date is strictly past the due date the classifier assigns
`days_in_arrears = floor((reference_date - due_date) in days)` and the tier
table `0..30 -> early`, `31..90 -> mid`, `>90 -> advanced` (so the 30/31 and
90/91 boundaries behave as claimed, but 0 days yields `early`, not
`current`); when the reference date is not past the due date the debt is
left entirely unchanged. -/
theorem C1_amended_classifier (hoy : Int) (d : Deuda)
    (hpag : d.estado ≠ EstadoDeuda.pagada) (_hcan : d.estado ≠ EstadoDeuda.cancelada) :
    (d.fechaVencimiento < hoy →
      (pasoScheduler hoy d).diasMora = (hoy - d.fechaVencimiento).toNat / msPorDia ∧
      ((pasoScheduler hoy d).diasMora ≤ 30 →
        (pasoScheduler hoy d).estado = EstadoDeuda.mora_temprana) ∧
      (30 < (pasoScheduler hoy d).diasMora → (pasoScheduler hoy d).diasMora ≤ 90 →
        (pasoScheduler hoy d).estado = EstadoDeuda.mora_media) ∧
      (90 < (pasoScheduler hoy d).diasMora →
        (pasoScheduler hoy d).estado = EstadoDeuda.mora_avanzada)) ∧
    (¬ d.fechaVencimiento < hoy → pasoScheduler hoy d = d) := by
  have hstep : pasoScheduler hoy d = actualizarDeuda hoy d := by
    simp [pasoScheduler, hpag]
  constructor
  · intro hv
    rw [hstep, actualizarDeuda_lt hv]
    exact ⟨rfl, fun h1 => clasificarEstado_temprana h1,
      fun h1 h2 => clasificarEstado_media h1 h2,
      fun h1 => clasificarEstado_avanzada h1⟩
  · intro hv
    rw [hstep, actualizarDeuda_not_lt hv]

/-- Witness for `C1_amended_classifier`: the boundary days 30, 31, 90, 91 on
a debt due at the epoch. -/
theorem C1_amended_classifier_witness :
    (pasoScheduler (30 * 86400000 : Int) deudaCero).estado = EstadoDeuda.mora_temprana ∧
    (pasoScheduler (31 * 86400000 : Int) deudaCero).estado = EstadoDeuda.mora_media ∧
    (pasoScheduler (90 * 86400000 : Int) deudaCero).estado = EstadoDeuda.mora_media ∧
    (pasoScheduler (91 * 86400000 : Int) deudaCero).estado = EstadoDeuda.mora_avanzada :=
  ⟨((C1_amended_classifier (30 * 86400000) deudaCero (by decide) (by decide)).1
      (by decide)).2.1 (by decide),
   (((C1_amended_classifier (31 * 86400000) deudaCero (by decide) (by decide)).1
      (by decide)).2.2.1 (by decide)) (by decide),
   (((C1_amended_classifier (90 * 86400000) deudaCero (by decide) (by decide)).1
      (by decide)).2.2.1 (by decide)) (by decide),
   ((C1_amended_classifier (91 * 86400000) deudaCero (by decide) (by decide)).1
      (by decide)).2.2.2 (by decide)⟩

/-- C2: the claim fails for `cancelada`: the scheduler's query filters out
only `pagada` (`estado: { $ne: 'pagada' }`), so a cancelled debt 100 days
past due is reclassified to `mora_avanzada`. -/
theorem C2_counterexample :
    (pasoScheduler (8640000000 : Int) deudaCancelada).estado = EstadoDeuda.mora_avanzada ∧
    (pasoScheduler (8640000000 : Int) deudaCancelada).diasMora = 100 ∧
    EstadoDeuda.mora_avanzada ≠ EstadoDeuda.cancelada := by
  decide

/-- C2 (amended): only `pagada` is sticky under the scheduler — a `pagada`
debt is never touched for any reference date — while a `cancelada` debt
whose due date has passed is reclassified out of `cancelada` like any open
debt. -/
theorem C2_amended_terminal (hoy : Int) (d : Deuda) :
    (d.estado = EstadoDeuda.pagada → pasoScheduler hoy d = d) ∧
    (d.estado = EstadoDeuda.cancelada → d.fechaVencimiento < hoy →
      (pasoScheduler hoy d).estado ≠ EstadoDeuda.cancelada) := by
  constructor
  · intro h
    simp [pasoScheduler, h]
  · intro h hv
    have hne : d.estado ≠ EstadoDeuda.pagada := by simp [h]
    simp only [pasoScheduler, if_neg hne, actualizarDeuda, if_pos hv, clasificarEstado]
    split_ifs <;> simp

/-- Witness for `C2_amended_terminal`: a paid debt survives a sweep
unchanged; a cancelled debt 100 days past due does not stay `cancelada`. -/
theorem C2_amended_terminal_witness :
    pasoScheduler (999 : Int) deudaPagada = deudaPagada ∧
    (pasoScheduler (8640000000 : Int) deudaCancelada).estado ≠ EstadoDeuda.cancelada :=
  ⟨(C2_amended_terminal 999 deudaPagada).1 rfl,
   (C2_amended_terminal 8640000000 deudaCancelada).2 rfl (by decide)⟩

/-- C9: the classifier step is idempotent — re-running `actualizarDiasMora`'s
per-debt update with the same reference date changes nothing the second
time, for every debt and every reference date. -/
theorem C9_idempotent (hoy : Int) (d : Deuda) :
    pasoScheduler hoy (pasoScheduler hoy d) = pasoScheduler hoy d := by
  by_cases hp : d.estado = EstadoDeuda.pagada
  · simp [pasoScheduler, hp]
  · simp only [pasoScheduler, if_neg hp]
    by_cases hv : d.fechaVencimiento < hoy
    · have hne : clasificarEstado ((hoy - d.fechaVencimiento).toNat / msPorDia) ≠
          EstadoDeuda.pagada := by
        unfold clasificarEstado
        split_ifs <;> simp
      simp [actualizarDeuda, hv, hne]
    · simp [actualizarDeuda, hv, hp]

theorem mejorPlantilla_none {l : List Plantilla} (h : mejorPlantilla l = none) :
    l = [] := by
  cases l with
  | nil => rfl
  | cons a as =>
    exfalso
    cases hm : mejorPlantilla as with
    | none =>
      simp only [mejorPlantilla, hm] at h
      exact Option.noConfusion h
    | some q =>
      simp only [mejorPlantilla, hm] at h
      by_cases hc : a.diasMora < q.diasMora
      · rw [if_pos hc] at h; exact Option.noConfusion h
      · rw [if_neg hc] at h; exact Option.noConfusion h

theorem mejorPlantilla_mem {l : List Plantilla} {p : Plantilla}
    (h : mejorPlantilla l = some p) : p ∈ l := by
  induction l generalizing p with
  | nil => exact Option.noConfusion h
  | cons a as ih =>
    cases hm : mejorPlantilla as with
    | none =>
      simp only [mejorPlantilla, hm] at h
      cases h
      exact List.mem_cons_self _ _
    | some q =>
      simp only [mejorPlantilla, hm] at h
      by_cases hc : a.diasMora < q.diasMora
      · rw [if_pos hc] at h
        cases h
        exact List.mem_cons_of_mem a (ih hm)
      · rw [if_neg hc] at h
        cases h
        exact List.mem_cons_self _ _

theorem mejorPlantilla_max {l : List Plantilla} {p : Plantilla}
    (h : mejorPlantilla l = some p) : ∀ q ∈ l, q.diasMora ≤ p.diasMora := by
  induction l generalizing p with
  | nil => exact Option.noConfusion h
  | cons a as ih =>
    intro q hq
    cases hm : mejorPlantilla as with
    | none =>
      simp only [mejorPlantilla, hm] at h
      cases h
      rcases List.mem_cons.mp hq with hqa | hqs
      · rw [hqa]
      · rw [mejorPlantilla_none hm] at hqs
        exact absurd hqs (List.not_mem_nil q)
    | some r =>
      simp only [mejorPlantilla, hm] at h
      by_cases hc : a.diasMora < r.diasMora
      · rw [if_pos hc] at h
        cases h
        rcases List.mem_cons.mp hq with hqa | hqs
        · rw [hqa]; exact le_of_lt hc
        · exact ih hm q hqs
      · rw [if_neg hc] at h
        cases h
        rcases List.mem_cons.mp hq with hqa | hqs
        · rw [hqa]
        · exact le_trans (ih hm q hqs) (le_of_not_lt hc)

/-- C5: template selection returns an active template matching the channel
and tone whose threshold is at most the debt's day count and maximal among
all matching catalog entries; when nothing matches it returns no template
and the dispatch handler answers with the structured 404
`'No se encontro plantilla apropiada'` instead of crashing. -/
theorem C5_template_selection (catalogo : List Plantilla) (tipo : Canal)
    (tono : Tono) (dias : Nat) :
    (∀ p, seleccionarPlantilla catalogo tipo tono dias = some p →
      p.activa = true ∧ p.tipo = tipo ∧ p.tono = tono ∧ p.diasMora ≤ dias ∧
      p ∈ catalogo ∧
      ∀ q ∈ catalogo, coincide tipo tono dias q = true → q.diasMora ≤ p.diasMora) ∧
    (seleccionarPlantilla catalogo tipo tono dias = none →
      (∀ q ∈ catalogo, coincide tipo tono dias q = false) ∧
      ∀ cl d hc tOk, d.diasMora = dias →
        (enviarComunicacion (some cl) (some d) tipo tono hc catalogo tOk).respuesta =
          RespuestaEnviar.noEncontrado "No se encontro plantilla apropiada") := by
  constructor
  · intro p hp
    have hmem : p ∈ catalogo.filter (coincide tipo tono dias) := mejorPlantilla_mem hp
    obtain ⟨hcat, hco⟩ := List.mem_filter.mp hmem
    have hco' := hco
    simp only [coincide, Bool.and_eq_true, decide_eq_true_eq] at hco'
    obtain ⟨⟨⟨ht, hn⟩, hd⟩, ha⟩ := hco'
    refine ⟨ha, ht, hn, hd, hcat, ?_⟩
    intro q hq hcoq
    exact mejorPlantilla_max hp q (List.mem_filter.mpr ⟨hq, hcoq⟩)
  · intro hnone
    have hfil : catalogo.filter (coincide tipo tono dias) = [] :=
      mejorPlantilla_none hnone
    constructor
    · intro q hq
      by_contra hq'
      have : q ∈ catalogo.filter (coincide tipo tono dias) :=
        List.mem_filter.mpr ⟨hq, by revert hq'; cases coincide tipo tono dias q <;> simp⟩
      rw [hfil] at this
      exact absurd this (List.not_mem_nil q)
    · intro cl d hc tOk hdias
      simp only [enviarComunicacion, hdias, hnone]

/-- Witness for `C5_template_selection`: for `days_in_arrears = 45` the
threshold-30 template is chosen from the 0/30/90 catalog, and it satisfies
the selection contract. -/
theorem C5_template_selection_witness :
    seleccionarPlantilla catalogoEjemplo Canal.email Tono.formal 45 =
      some (plantillaUmbral 30) ∧
    (plantillaUmbral 30).activa = true ∧
    (plantillaUmbral 30).tipo = Canal.email ∧
    (plantillaUmbral 30).diasMora ≤ 45 ∧
    plantillaUmbral 30 ∈ catalogoEjemplo :=
  have h := (C5_template_selection catalogoEjemplo Canal.email Tono.formal 45).1
    (plantillaUmbral 30) (by decide)
  ⟨by decide, h.1, h.2.1, h.2.2.2.1, h.2.2.2.2.1⟩

/-- C7: once the customer/debt and template lookups pass, the dispatch
handler persists exactly one `Comunicacion` row and performs at most one
campaign-metrics increment operation, whatever the channel, the campaign
reference, and the transport outcome. -/
theorem C7_single_persist (c : Cliente) (d : Deuda) (tipo : Canal) (tono : Tono)
    (hc tOk : Bool) (catalogo : List Plantilla) (p : Plantilla)
    (hp : seleccionarPlantilla catalogo tipo tono d.diasMora = some p) :
    (enviarComunicacion (some c) (some d) tipo tono hc catalogo tOk).comunicaciones.length
      = 1 ∧
    (enviarComunicacion (some c) (some d) tipo tono hc catalogo tOk).opsIncremento ≤ 1 := by
  simp only [enviarComunicacion, hp]
  cases tOk <;> cases hc <;> simp

/-- Witness for `C7_single_persist`: the concrete end-to-end dispatch. -/
theorem C7_single_persist_witness :
    (enviarComunicacion (some clienteAna) (some deuda45) Canal.email Tono.formal true
      catalogoEjemplo true).comunicaciones.length = 1 ∧
    (enviarComunicacion (some clienteAna) (some deuda45) Canal.email Tono.formal true
      catalogoEjemplo true).opsIncremento ≤ 1 :=
  C7_single_persist clienteAna deuda45 Canal.email Tono.formal true true
    catalogoEjemplo (plantillaUmbral 30) (by decide)

/-- C3: the claim fails on the campaign counters: on transport failure the
handler persists the row as `error` and answers a structured 500, but the
success branch is the only place any `$inc` runs, so `enviados` is NOT
incremented (the claim requires `sent` to grow by exactly 1). -/
theorem C3_counterexample :
    ((enviarComunicacion (some clienteAna) (some deuda45) Canal.email Tono.formal true
      catalogoEjemplo false).comunicaciones.map Comunicacion.estado) = [EstadoCom.error] ∧
    (enviarComunicacion (some clienteAna) (some deuda45) Canal.email Tono.formal true
      catalogoEjemplo false).incEnviados = 0 ∧
    (enviarComunicacion (some clienteAna) (some deuda45) Canal.email Tono.formal true
      catalogoEjemplo false).incEnviados ≠ 1 ∧
    (enviarComunicacion (some clienteAna) (some deuda45) Canal.email Tono.formal true
      catalogoEjemplo false).incEntregados = 0 := by
  decide

/-- C3 (amended): for every dispatch whose lookups pass and whose transport
call fails, the persisted Communication has status `error`, the transport
error is surfaced as a structured 500 response (not an unhandled fault),
and the campaign's counters are left entirely untouched: neither `enviados`
nor `entregados` is incremented and no increment operation runs. -/
theorem C3_amended_failure_path (c : Cliente) (d : Deuda) (tipo : Canal)
    (tono : Tono) (hc : Bool) (catalogo : List Plantilla) (p : Plantilla)
    (hp : seleccionarPlantilla catalogo tipo tono d.diasMora = some p) :
    ((enviarComunicacion (some c) (some d) tipo tono hc catalogo false).comunicaciones.map
      Comunicacion.estado) = [EstadoCom.error] ∧
    (enviarComunicacion (some c) (some d) tipo tono hc catalogo false).incEnviados = 0 ∧
    (enviarComunicacion (some c) (some d) tipo tono hc catalogo false).incEntregados = 0 ∧
    (enviarComunicacion (some c) (some d) tipo tono hc catalogo false).opsIncremento = 0 ∧
    (enviarComunicacion (some c) (some d) tipo tono hc catalogo false).respuesta =
      RespuestaEnviar.errorEnvio "Error al enviar comunicacion" := by
  simp only [enviarComunicacion, hp]
  simp

/-- Witness for `C3_amended_failure_path`: the concrete failed dispatch. -/
theorem C3_amended_failure_path_witness :
    ((enviarComunicacion (some clienteAna) (some deuda45) Canal.sms Tono.urgente true
      [plantillaSms] false).comunicaciones.map Comunicacion.estado) = [EstadoCom.error] ∧
    (enviarComunicacion (some clienteAna) (some deuda45) Canal.sms Tono.urgente true
      [plantillaSms] false).incEnviados = 0 ∧
    (enviarComunicacion (some clienteAna) (some deuda45) Canal.sms Tono.urgente true
      [plantillaSms] false).incEntregados = 0 ∧
    (enviarComunicacion (some clienteAna) (some deuda45) Canal.sms Tono.urgente true
      [plantillaSms] false).opsIncremento = 0 ∧
    (enviarComunicacion (some clienteAna) (some deuda45) Canal.sms Tono.urgente true
      [plantillaSms] false).respuesta =
      RespuestaEnviar.errorEnvio "Error al enviar comunicacion" :=
  C3_amended_failure_path clienteAna deuda45 Canal.sms Tono.urgente true
    [plantillaSms] plantillaSms (by decide)

/-- C4 (code bug, as the spec itself flags in 4.3/9): `.replace` with a
string pattern substitutes only the first occurrence, so a body using
`{nombre}` twice still contains `{nombre}` after rendering with `nombre`
bound to `"Ana"`. -/
theorem C4_code_divergence :
    renderContenido plantillaDoble clienteAna deuda45 = "Hola Ana, gracias {nombre}" ∧
    contiene "{nombre}" (renderContenido plantillaDoble clienteAna deuda45) = true := by
  decide

/-- C6: the claim fails at `sent = 0`: with every counter zero the compare
endpoint computes `0/0`, which is `NaN` (rendered `"NaN"` by `toFixed`),
not `0` — though no fault is raised: the handler still answers 200. -/
theorem C6_counterexample :
    compararCampanias (some campaniaCero) (some campaniaCero) =
      RespuestaComparar.exito
        { tasaAperturaA := JsNum.nan, tasaRespuestaA := JsNum.nan,
          tasaConversionA := JsNum.nan, tasaAperturaB := JsNum.nan,
          tasaRespuestaB := JsNum.nan, tasaConversionB := JsNum.nan } ∧
    JsNum.nan ≠ JsNum.fin 0 := by
  decide

/-- C6 (amended): for two present campaigns the compare endpoint always
answers 200 (no division fault), and each rate equals
`counter / sent * 100` rounded to two decimals whenever `sent > 0`; when
`sent = 0` the rate is `NaN` (or `Infinity` for a positive counter), never
the claimed `0`. -/
theorem C6_amended_rates (contador enviados : Nat) (a b : Campania) :
    (∃ comp, compararCampanias (some a) (some b) = RespuestaComparar.exito comp) ∧
    (0 < enviados → tasa contador enviados =
      JsNum.fin (redondear2 ((contador : ℚ) / (enviados : ℚ) * 100))) ∧
    (enviados = 0 →
      tasa contador enviados = (if contador = 0 then JsNum.nan else JsNum.inf) ∧
      tasa contador enviados ≠ JsNum.fin 0) := by
  refine ⟨⟨_, rfl⟩, ?_, ?_⟩
  · intro hpos
    have hne : (enviados : ℚ) ≠ 0 := by
      exact_mod_cast Nat.pos_iff_ne_zero.mp hpos
    simp [tasa, jsDiv, hne, jsMul100, jsToFixed2]
  · intro hcero
    subst hcero
    by_cases hc : contador = 0
    · subst hc
      refine ⟨by simp [tasa, jsDiv, jsMul100, jsToFixed2], by simp [tasa, jsDiv, jsMul100, jsToFixed2]⟩
    · have hne : (contador : ℚ) ≠ 0 := by exact_mod_cast hc
      refine ⟨?_, ?_⟩ <;> simp [tasa, jsDiv, hne, hc, jsMul100, jsToFixed2]

/-- Witness for `C6_amended_rates`: a concrete 200 response, the 1-of-2
(50%) rate, and the `sent = 0` rate not being `fin 0`. -/
theorem C6_amended_rates_witness :
    (∃ comp, compararCampanias (some campaniaCero) (some campaniaCero) =
      RespuestaComparar.exito comp) ∧
    tasa 1 2 = JsNum.fin (redondear2 ((1 : ℚ) / (2 : ℚ) * 100)) ∧
    tasa 0 0 ≠ JsNum.fin 0 :=
  ⟨(C6_amended_rates 1 2 campaniaCero campaniaCero).1,
   (C6_amended_rates 1 2 campaniaCero campaniaCero).2.1 (by decide),
   ((C6_amended_rates 0 0 campaniaCero campaniaCero).2.2 rfl).2⟩

/-- C10: when either campaign id fails to resolve, the compare handler does
not produce a structured NotFound: the `null` is dereferenced, the
`TypeError` is caught, and the response is the generic 500. -/
theorem C10_compare_missing (ca cb : Option Campania)
    (h : ca = none ∨ cb = none) :
    compararCampanias ca cb =
      RespuestaComparar.errorInterno "Cannot read properties of null" ∧
    ∀ comp, compararCampanias ca cb ≠ RespuestaComparar.exito comp := by
  rcases h with h | h
  · subst h
    cases cb <;> exact ⟨rfl, fun comp hcomp => RespuestaComparar.noConfusion hcomp⟩
  · subst h
    cases ca <;> exact ⟨rfl, fun comp hcomp => RespuestaComparar.noConfusion hcomp⟩

/-- Witness for `C10_compare_missing`: one missing campaign id beside a
stored campaign. -/
theorem C10_compare_missing_witness :
    compararCampanias none (some campaniaCero) =
      RespuestaComparar.errorInterno "Cannot read properties of null" :=
  (C10_compare_missing none (some campaniaCero) (Or.inl rfl)).1

/-- C8: the claim fails: with two overdue open debts where the first
persist is rejected, the sweep leaves the second debt untouched (the
try/catch wraps the whole loop), even though processing it alone would have
updated it. -/
theorem C8_counterexample :
    (barridoDeudas 3456000000 [⟨deudaCero, false⟩, ⟨deudaNueve, true⟩]).1 =
      [deudaCero, deudaNueve] ∧
    (barridoDeudas 3456000000 [⟨deudaNueve, true⟩]).1 =
      [actualizarDeuda 3456000000 deudaNueve] ∧
    deudaNueve ≠ actualizarDeuda 3456000000 deudaNueve := by
  decide

/-- C8 (amended): when persisting one debt's update fails, the sweep aborts
there — the failing debt and every remaining debt keep their stored state
for that run — while the error is caught and reported (the job returns
normally instead of crashing the process). -/
theorem C8_amended_abort (hoy : Int) (e : EntradaSweep) (rest : List EntradaSweep)
    (h1 : e.deuda.estado ≠ EstadoDeuda.pagada)
    (h2 : e.deuda.fechaVencimiento < hoy)
    (h3 : e.persistOk = false) :
    barridoDeudas hoy (e :: rest) = (e.deuda :: rest.map EntradaSweep.deuda, true) := by
  simp [barridoDeudas, h1, h2, h3]

/-- Witness for `C8_amended_abort`: the concrete two-debt sweep whose first
persist fails. -/
theorem C8_amended_abort_witness :
    barridoDeudas 3456000000 [⟨deudaCero, false⟩, ⟨deudaNueve, true⟩] =
      ([deudaCero, deudaNueve], true) :=
  C8_amended_abort 3456000000 ⟨deudaCero, false⟩ [⟨deudaNueve, true⟩]
    (by decide) (by decide) rfl
